import Mathlib

/-!
Verification development for the form-filling content script of the
fakeFormFiller browser extension.  The definitions below are a shallow
embedding of the content script (class FakeFormFiller): controls are
modelled as explicit records, the data-generation backend (window.faker),
Math.random draws and the clock are explicit environment parameters, and
DOM writes are modelled as pure state updates on the control records.
JavaScript numbers are modelled as rationals (only comparisons, floors and
small integer arithmetic occur in the embedded code); JavaScript string
indices are modelled as characters.
-/

namespace FFF

/-- A JavaScript value as produced by the data generators and consumed by
the constraint enforcer: a string, a number (modelled as a rational),
a boolean, or null. -/
inductive JSVal where
  | str : String → JSVal
  | num : ℚ → JSVal
  | bool : Bool → JSVal
  | null : JSVal
deriving DecidableEq, Repr

/-- One entry of a select control's options collection: its value attribute
and its text content (the label shown to the user). -/
structure SelectOption where
  value : String
  textContent : String
deriving DecidableEq, Repr

/-- Model of a form control (an input, textarea or select element) together
with the attributes and computed-style facts the content script reads.
Computed style and layout (display, visibility, offsetParent) are recorded
as boolean facts of the environment. -/
structure Field where
  tagName : String := "input"
  type : String := "text"
  name : String := ""
  id : String := ""
  placeholder : String := ""
  autocomplete : String := ""
  className : String := ""
  labelsText : List String := []
  value : String := ""
  checked : Bool := false
  options : List SelectOption := []
  selectedIndex : Option Nat := none
  disabled : Bool := false
  readOnly : Bool := false
  required : Bool := false
  maxLengthProp : Int := -1
  maxlengthAttr : Option String := none
  min : String := ""
  max : String := ""
  hasNoAutofillAttr : Bool := false
  displayNone : Bool := false
  visibilityHidden : Bool := false
  offsetParentNull : Bool := false
  parentText : String := ""
deriving DecidableEq, Repr

/-- Substring test: does the haystack contain the pattern?  Models both
JavaScript String.includes and a regular-expression test against an
alternation of literal words. -/
def containsStr (hay pat : String) : Bool :=
  hay.data.tails.any (fun t => pat.data.isPrefixOf t)

/-- Does the text match any of the given literal alternatives?  Models a
regular-expression test such as /email|e-mail/. -/
def testAny (text : String) (pats : List String) : Bool :=
  pats.any (fun p => containsStr text p)

/-- Character-wise lower-casing, the model of toLowerCase on the ASCII
attribute values the content script handles. -/
def strLower (s : String) : String :=
  String.mk (s.data.map Char.toLower)

/-- Whitespace trimming from both ends, the model of String.trim. -/
def jsTrim (s : String) : String :=
  String.mk (((s.data.dropWhile Char.isWhitespace).reverse.dropWhile Char.isWhitespace).reverse)

/-- The value currently carried by a select control: the value of its
selected option, or the empty string when nothing is selected. -/
def selectValue (f : Field) : String :=
  match f.selectedIndex with
  | some i => ((f.options.getD i { value := "", textContent := "" })).value
  | none => ""

/-- The value the DOM reports for a control: the selected option value for
selects, the stored value string otherwise. -/
def domValue (f : Field) : String :=
  if (strLower f.tagName) = "select" then selectValue f else f.value

/-- Index of the first list entry satisfying the predicate. -/
def findIdxOpt {α : Type} (p : α → Bool) : List α → Option Nat
  | [] => none
  | a :: l => if p a then some 0 else (findIdxOpt p l).map (fun i => i + 1)

/-- Assigning to a select control's value: the first option with a matching
value becomes selected; when none matches the selection is cleared.
Models the HTMLSelectElement value setter. -/
def setSelectValue (f : Field) (v : String) : Field :=
  { f with selectedIndex := findIdxOpt (fun o => o.value = v) f.options }

/-- isFieldEmpty from the content script: checkbox/radio are empty when
unchecked, selects when no non-blank value is selected, other controls
when their trimmed value is empty. -/
def isFieldEmpty (f : Field) : Bool :=
  let tag := (strLower f.tagName)
  let type := (strLower f.type)
  if type = "checkbox" || type = "radio" then
    !f.checked
  else if tag = "select" then
    (domValue f = "") || ((jsTrim (domValue f)) = "")
  else
    ((jsTrim f.value) = "")

/-- The combined lower-cased signal string the classifier inspects:
name, id, placeholder, autocomplete, class and joined label text. -/
def allTextOf (f : Field) : String :=
  (strLower f.name) ++ " " ++ (strLower f.id) ++ " " ++ (strLower f.placeholder) ++ " " ++
    (strLower f.autocomplete) ++ " " ++ (strLower f.className) ++ " " ++
    (strLower (String.intercalate " " f.labelsText))

/-- detectFieldType from the content script: an ordered chain of rules,
each testing the explicit type attribute or keywords in the combined
signal string; the first matching rule wins. -/
def detectFieldType (f : Field) : String :=
  let type := (strLower f.type)
  let allText := allTextOf f
  if type = "email" || testAny allText ["email", "e-mail"] then "email"
  else if type = "password" || testAny allText ["password", "pwd", "pass"] then "password"
  else if type = "tel" || testAny allText ["phone", "tel", "mobile", "cell"] then "phone"
  else if type = "url" || testAny allText ["url", "website", "homepage", "link"] then "url"
  else if type = "date" || type = "datetime-local" ||
      testAny allText ["date", "birth", "dob", "birthday"] then "date"
  else if type = "number" || type = "range" ||
      testAny allText ["age", "year", "amount", "price", "quantity", "count", "number"] then "number"
  else if testAny allText ["name", "firstname", "lastname", "fullname", "givenname", "surname"] then
    if testAny allText ["first", "given"] then "firstName"
    else if testAny allText ["last", "sur", "family"] then "lastName"
    else if testAny allText ["middle"] then "middleName"
    else if testAny allText ["full", "complete"] then "fullName"
    else "firstName"
  else if testAny allText ["address", "street", "city", "state", "zip", "postal", "country"] then
    if testAny allText ["street", "address1", "addr1"] then "streetAddress"
    else if testAny allText ["city", "town"] then "city"
    else if testAny allText ["state", "province", "region"] then "state"
    else if testAny allText ["zip", "postal"] then "zipCode"
    else if testAny allText ["country"] then "country"
    else "streetAddress"
  else if testAny allText ["company", "organization", "employer", "business"] then "company"
  else if testAny allText ["job", "title", "position", "role", "occupation"] then "jobTitle"
  else if testAny allText ["credit", "card", "cc", "cardnumber"] then "creditCard"
  else if (strLower f.tagName) = "textarea" then
    if testAny allText ["comment", "message", "description", "bio", "about"] then "paragraph"
    else "paragraph"
  else if (strLower f.tagName) = "select" then "select"
  else if type = "checkbox" then "checkbox"
  else if type = "radio" then "radio"
  else "text"

/-- The semantic-kind to base-kind table of getBaseType (semanticToBase). -/
def semanticToBase (k : String) : Option String :=
  List.lookup k
    [("firstName", "text"), ("lastName", "text"), ("middleName", "text"),
     ("fullName", "text"), ("streetAddress", "text"), ("city", "text"),
     ("state", "text"), ("zipCode", "text"), ("country", "text"),
     ("company", "text"), ("jobTitle", "text"), ("creditCard", "text"),
     ("paragraph", "textarea"), ("phone", "tel")]

/-- getBaseType from the content script: the coarse category used for the
per-type enable toggles. -/
def getBaseType (f : Field) (detectedType : String) : String :=
  let tag := (strLower f.tagName)
  let type := (strLower f.type)
  if tag = "textarea" then "textarea"
  else if type = "email" then "email"
  else if type = "password" then "password"
  else if type = "tel" then "tel"
  else if type = "url" then "url"
  else if type = "date" || type = "datetime-local" then "date_disabled"
  else if type = "number" || type = "range" then "number"
  else if type = "checkbox" then "checkbox"
  else if type = "radio" then "radio"
  else if tag = "select" then "select"
  else (semanticToBase detectedType).getD "text"

/-- Persisted settings of the extension, as produced by defaultSettings and
getSettings.  The enabled-kinds map is an association list; a missing key
reads as the JavaScript undefined, which is falsy. -/
structure Settings where
  autoFillEnabled : Bool
  visualFeedbackEnabled : Bool
  skipHiddenFields : Bool
  fillDelay : Nat
  enabledFieldTypes : List (String × Bool)
deriving DecidableEq, Repr

/-- Reading enabledMap[baseType]: a missing key is undefined, hence falsy. -/
def lookupBool (m : List (String × Bool)) (k : String) : Bool :=
  match m.lookup k with
  | some b => b
  | none => false

/-- defaultSettings from the content script. -/
def defaultSettings : Settings :=
  { autoFillEnabled := true
    visualFeedbackEnabled := true
    skipHiddenFields := true
    fillDelay := 100
    enabledFieldTypes :=
      [("text", true), ("email", true), ("password", true), ("textarea", true),
       ("select", true), ("checkbox", true), ("radio", true), ("date", true),
       ("number", true), ("url", true), ("tel", true)] }

/-- isFieldFillable from the content script, with the computed-style reads
replaced by the recorded style facts of the control.  Note the hidden-field
check consults the persisted settings, not any per-call options. -/
def isFieldFillable (s : Settings) (f : Field) : Bool :=
  let detectedType := detectFieldType f
  let baseType := getBaseType f detectedType
  if detectedType = "date" then false
  else if !(lookupBool s.enabledFieldTypes baseType) then false
  else if s.skipHiddenFields &&
      (f.displayNone || f.visibilityHidden || f.type = "hidden" || f.offsetParentNull) then false
  else if containsStr (strLower f.name) "captcha" || containsStr (strLower f.id) "captcha" ||
      containsStr (strLower f.name) "recaptcha" || containsStr (strLower f.id) "recaptcha" then false
  else if f.disabled || f.readOnly then false
  else if f.hasNoAutofillAttr then false
  else if !(isFieldEmpty f) then false
  else true

/-- getFieldIdentifier from the content script. -/
def getFieldIdentifier (f : Field) : String :=
  if f.name ≠ "" then f.name
  else if f.id ≠ "" then f.id
  else if f.placeholder ≠ "" then f.placeholder
  else "unnamed-field"

/-- The value of a list of decimal digit characters. -/
def digitsVal (ds : List Char) : Nat :=
  ds.foldl (fun a c => a * 10 + (c.toNat - 48)) 0

/-- Model of JavaScript parseInt(s, 10): trim, optional sign, then the
longest prefix of decimal digits; none models NaN (no digits found). -/
def parseIntJS (s : String) : Option Int :=
  let cs := (jsTrim s).data
  let core : List Char → Option Nat := fun l =>
    let ds := l.takeWhile (fun c => c.isDigit)
    if ds.isEmpty then none else some (digitsVal ds)
  match cs with
  | '-' :: rest => (core rest).map (fun n => -(n : Int))
  | '+' :: rest => (core rest).map (fun n => (n : Int))
  | l => (core l).map (fun n => (n : Int))

/-- Model of JavaScript Number(s) on the decimal subset: trim; the empty
string is 0; an optional sign followed by a decimal literal (digits, or
digits.digits, or .digits, or digits.); none models NaN.  Exponent and hex
literals are outside the modelled subset. -/
def jsNumber (s : String) : Option ℚ :=
  let core : List Char → Option ℚ := fun l =>
    let ip := l.takeWhile (fun c => c.isDigit)
    let rest := l.drop ip.length
    match rest with
    | [] => if ip.isEmpty then none else some ((digitsVal ip : ℚ))
    | '.' :: frac =>
      if frac.all (fun c => c.isDigit) && !(ip.isEmpty && frac.isEmpty) then
        some ((digitsVal ip : ℚ) + (digitsVal frac : ℚ) / ((10 : ℚ) ^ frac.length))
      else none
    | _ => none
  let t := jsTrim s
  if t = "" then some 0
  else match t.data with
    | '-' :: rest => (core rest).map (fun q => -q)
    | '+' :: rest => core rest
    | l => core l

/-- JavaScript truthiness of a value. -/
def jsTruthy (v : JSVal) : Bool :=
  match v with
  | .str s => s ≠ ""
  | .num q => q ≠ 0
  | .bool b => b
  | .null => false

/-- String rendering of an integer, as in a JavaScript template literal. -/
def jsIntToString (i : Int) : String := toString i

/-- String rendering of a JavaScript number.  Exact for integers, which is
the only case the embedded code produces on the paths studied here. -/
def jsNumToString (q : ℚ) : String :=
  if q.den = 1 then toString q.num else toString q

/-- The ambient JavaScript environment: the current date (as rendered by
toISOString) and a position-indexed stream of Math.random draws, each a
rational in the interval from 0 inclusive to 1 exclusive.  randB36 is the
result of Math.random().toString(36).slice(2), an opaque string. -/
structure JSEnv where
  today : String
  rand : Nat → ℚ
  randB36 : String

/-- Model of the optional window.faker backend: an availability flag, a
capability flag per probed method, and the (environment-chosen) results of
the calls the content script makes.  Backend calls are modelled as total
functions of their arguments; bounds passed to number.int may be NaN
(none). -/
structure Faker where
  available : Bool := false
  hasInternetEmail : Bool := false
  internetEmail : String := ""
  hasInternetPassword : Bool := false
  internetPassword : String := ""
  hasPhoneNumber : Bool := false
  phoneNumber : String := ""
  hasInternetUrl : Bool := false
  internetUrl : String := ""
  hasPersonFirstName : Bool := false
  personFirstName : String := ""
  hasNameFirstName : Bool := false
  nameFirstName : String := ""
  hasPersonLastName : Bool := false
  personLastName : String := ""
  hasNameLastName : Bool := false
  nameLastName : String := ""
  hasPersonMiddleName : Bool := false
  personMiddleName : String := ""
  hasNameMiddleName : Bool := false
  nameMiddleName : String := ""
  hasPersonFullName : Bool := false
  personFullName : String := ""
  hasLocationStreetAddress : Bool := false
  locationStreetAddress : String := ""
  hasAddressStreetAddress : Bool := false
  addressStreetAddress : String := ""
  hasLocationCity : Bool := false
  locationCity : String := ""
  hasAddressCity : Bool := false
  addressCity : String := ""
  hasLocationState : Bool := false
  locationState : String := ""
  hasAddressState : Bool := false
  addressState : String := ""
  hasLocationZipCode : Bool := false
  locationZipCode : String := ""
  hasAddressZipCode : Bool := false
  addressZipCode : String := ""
  hasLocationCountry : Bool := false
  locationCountry : String := ""
  hasAddressCountry : Bool := false
  addressCountry : String := ""
  hasCompanyName : Bool := false
  companyName : String := ""
  hasPersonJobTitle : Bool := false
  personJobTitle : String := ""
  hasFinanceCreditCardNumber : Bool := false
  financeCreditCardNumber : String := ""
  hasStringNumeric : Bool := false
  stringNumeric : Nat → String := fun _ => ""
  hasNumberInt : Bool := false
  numberInt : Option ℚ → Option ℚ → ℚ := fun _ _ => 0
  hasLoremParagraph : Bool := false
  loremParagraph : String := ""
  hasLoremWords : Bool := false
  loremWordsJoined : Int → String := fun _ => ""
  loremWords2 : String := ""
  hasLoremSentence : Bool := false
  loremSentence : Int → String := fun _ => ""
  hasInternetUserName : Bool := false
  internetUserName : String := ""

/-- getFallbackData from the content script: the static sample table used
when the faker backend is unavailable.  Note the date entry is the current
date, a non-empty string. -/
def getFallbackData (env : JSEnv) (fieldType : String) : JSVal :=
  if fieldType = "email" then .str "test@example.com"
  else if fieldType = "password" then .str "TempPass123!"
  else if fieldType = "phone" then .str "+1 555 123 4567"
  else if fieldType = "url" then .str "https://example.com"
  else if fieldType = "firstName" then .str "Alex"
  else if fieldType = "lastName" then .str "Smith"
  else if fieldType = "middleName" then .str "Lee"
  else if fieldType = "fullName" then .str "Alex Smith"
  else if fieldType = "streetAddress" then .str "123 Main St"
  else if fieldType = "city" then .str "Springfield"
  else if fieldType = "state" then .str "CA"
  else if fieldType = "zipCode" then .str "90210"
  else if fieldType = "country" then .str "United States"
  else if fieldType = "company" then .str "Acme Corp"
  else if fieldType = "jobTitle" then .str "Engineer"
  else if fieldType = "creditCard" then .str "4111111111111111"
  else if fieldType = "date" then .str env.today
  else if fieldType = "number" then .num ((Int.floor (env.rand 0 * 100) : ℚ) + 1)
  else if fieldType = "paragraph" then
    .str "Lorem ipsum dolor sit amet, consectetur adipiscing elit."
  else if fieldType = "text" then .str "Sample Text"
  else .str "Sample Data"

/-- randomInt from the content script: the faker backend when it offers
number.int, otherwise a Math.random draw scaled to the range. -/
def randomInt (fk : Faker) (env : JSEnv) (mn mx : ℚ) : ℚ :=
  if fk.available && fk.hasNumberInt then fk.numberInt (some mn) (some mx)
  else (Int.floor (env.rand 0 * (mx - mn + 1)) : ℚ) + mn

/-- The options eligible for selection in handleSelectField: value truthy,
value non-blank after trimming, text content non-blank after trimming. -/
def validSelectOptions (f : Field) : List SelectOption :=
  f.options.filter (fun o => o.value ≠ "" && (jsTrim o.value) ≠ "" && (jsTrim o.textContent) ≠ "")

/-- handleSelectField from the content script: filter out options with a
blank (empty after trimming) value or text content, then pick the option
at index floor(r * count) where r is the Math.random draw. -/
def handleSelectField (field : Option Field) (r : ℚ) : String :=
  match field with
  | none => ""
  | some f =>
    if f.options.length = 0 then ""
    else
      let validOptions := validSelectOptions f
      if validOptions.length = 0 then ""
      else
        let idx := (Int.floor (r * (validOptions.length : ℚ))).toNat
        (validOptions.getD idx { value := "", textContent := "" }).value

/-- The firstName case of generateFakeData (also reused inline by the
fullName fallback, where the source recurses with the same backend). -/
def genFirstName (fk : Faker) : String :=
  if fk.hasPersonFirstName then fk.personFirstName
  else if fk.hasNameFirstName then fk.nameFirstName
  else "Alex"

/-- The lastName case of generateFakeData. -/
def genLastName (fk : Faker) : String :=
  if fk.hasPersonLastName then fk.personLastName
  else if fk.hasNameLastName then fk.nameLastName
  else "Smith"

/-- The middleName case of generateFakeData. -/
def genMiddleName (fk : Faker) : String :=
  if fk.hasPersonMiddleName then fk.personMiddleName
  else if fk.hasNameMiddleName then fk.nameMiddleName
  else "Lee"

/-- A run of n random decimal digits, as produced by the
Array.from(..., Math.floor(Math.random() * 10)).join("") fallbacks. -/
def randomDigits (env : JSEnv) (n : Nat) : String :=
  String.join ((List.range n).map (fun i => jsIntToString (Int.floor (env.rand i * 10))))

/-- Truncation of a string to its first n characters, as JavaScript
substring(0, n) and slice(0, n) on the studied inputs. -/
def jsSlice0 (s : String) (n : Nat) : String := String.mk (s.data.take n)

/-- The regex match /max\s+(\d+)\s+characters?/ attempted at one position
of a lower-cased character list: literal max, whitespace, digits,
whitespace, then the literal character (the trailing s optional). -/
def charLimitAt (cs : List Char) : Option Nat :=
  match cs with
  | 'm' :: 'a' :: 'x' :: rest =>
    let ws := rest.takeWhile (fun c => c.isWhitespace)
    if ws.isEmpty then none
    else
      let r1 := rest.drop ws.length
      let ds := r1.takeWhile (fun c => c.isDigit)
      if ds.isEmpty then none
      else
        let r2 := r1.drop ds.length
        let ws2 := r2.takeWhile (fun c => c.isWhitespace)
        if ws2.isEmpty then none
        else
          let r3 := r2.drop ws2.length
          if ['c', 'h', 'a', 'r', 'a', 'c', 't', 'e', 'r'].isPrefixOf r3 then
            some (digitsVal ds)
          else none
  | _ => none

/-- First match of the character-limit regex anywhere in the list. -/
def firstCharLimit : List Char → Option Nat
  | [] => none
  | c :: rest =>
    match charLimitAt (c :: rest) with
    | some n => some n
    | none => firstCharLimit rest

/-- generateFakeData from the content script.  When the backend is absent
the static fallback table is used; otherwise the kind is dispatched
through the switch.  Backend method calls are modelled as total reads of
the Faker record; the two unguarded faker.number.int call sites yield the
catch-clause result "Sample Data" when the capability is missing, which
models the thrown TypeError being caught by the surrounding try. -/
def generateFakeData (fk : Faker) (env : JSEnv) (fieldType : String) (field : Option Field) : JSVal :=
  if fk.available = false then getFallbackData env fieldType
  else if fieldType = "date" then .str ""
  else if fieldType = "email" then
    .str (if fk.hasInternetEmail then fk.internetEmail
      else "user" ++ jsIntToString (Int.floor (env.rand 0 * 1000)) ++ "@example.com")
  else if fieldType = "password" then
    .str (if fk.hasInternetPassword then fk.internetPassword else env.randB36 ++ "A1!")
  else if fieldType = "phone" then
    .str (if fk.hasPhoneNumber then fk.phoneNumber
      else "+1 " ++ jsIntToString (Int.floor (100 + env.rand 0 * 900)) ++ " " ++
        jsIntToString (Int.floor (100 + env.rand 1 * 900)) ++ " " ++
        jsIntToString (Int.floor (1000 + env.rand 2 * 9000)))
  else if fieldType = "url" then
    .str (if fk.hasInternetUrl then fk.internetUrl
      else "https://www.example.com/" ++ jsIntToString (Int.floor (env.rand 0 * 1000)))
  else if fieldType = "firstName" then .str (genFirstName fk)
  else if fieldType = "lastName" then .str (genLastName fk)
  else if fieldType = "middleName" then .str (genMiddleName fk)
  else if fieldType = "fullName" then
    .str (if fk.hasPersonFullName then fk.personFullName
      else genFirstName fk ++ " " ++ genLastName fk)
  else if fieldType = "streetAddress" then
    .str (if fk.hasLocationStreetAddress then fk.locationStreetAddress
      else if fk.hasAddressStreetAddress then fk.addressStreetAddress
      else "123 Main St")
  else if fieldType = "city" then
    .str (if fk.hasLocationCity then fk.locationCity
      else if fk.hasAddressCity then fk.addressCity else "Springfield")
  else if fieldType = "state" then
    .str (if fk.hasLocationState then fk.locationState
      else if fk.hasAddressState then fk.addressState else "CA")
  else if fieldType = "zipCode" then
    .str (if fk.hasLocationZipCode then fk.locationZipCode
      else if fk.hasAddressZipCode then fk.addressZipCode else "90210")
  else if fieldType = "country" then
    .str (if fk.hasLocationCountry then fk.locationCountry
      else if fk.hasAddressCountry then fk.addressCountry else "United States")
  else if fieldType = "company" then
    .str (if fk.hasCompanyName then fk.companyName else "Acme Corp")
  else if fieldType = "jobTitle" then
    .str (if fk.hasPersonJobTitle then fk.personJobTitle else "Engineer")
  else if fieldType = "creditCard" then
    .str (if fk.hasFinanceCreditCardNumber then fk.financeCreditCardNumber
      else randomDigits env 16)
  else if fieldType = "number" then
    match field with
    | some f =>
      if containsStr f.name "aadhaarNumber" then
        if fk.hasStringNumeric then .str (fk.stringNumeric 12)
        else .str (randomDigits env 12)
      else if containsStr f.name "yearsAttended" then
        if fk.hasNumberInt then .num (fk.numberInt (some 1) (some 15)) else .str "Sample Data"
      else
        let hasMin := f.min ≠ ""
        let hasMax := f.max ≠ ""
        let maxLength : Option Int :=
          if 0 < f.maxLengthProp then some f.maxLengthProp
          else match f.maxlengthAttr with
            | some a => if a ≠ "" then parseIntJS a else none
            | none => none
        let mn : Option Int := if hasMin then parseIntJS f.min else some 0
        let mx : Option ℚ :=
          if hasMax then (parseIntJS f.max).map (fun i => (i : ℚ))
          else match maxLength with
            | some ml =>
              if ml ≠ 0 then some ((10 : ℚ) ^ (min ml 12) - 1)
              else mn.map (fun i => (i : ℚ) + 100)
            | none => mn.map (fun i => (i : ℚ) + 100)
        let mnq : Option ℚ := mn.map (fun i => (i : ℚ))
        let mx : Option ℚ :=
          match mnq, mx with
          | some a, some b => if b < a then some a else some b
          | _, _ => mx
        if fk.hasNumberInt then .num (fk.numberInt mnq mx) else .str "Sample Data"
    | none =>
      if fk.hasNumberInt then .num (fk.numberInt (some 1) (some 100)) else .str "Sample Data"
  else if fieldType = "paragraph" then
    let paragraph0 :=
      if fk.hasLoremParagraph then fk.loremParagraph
      else "Lorem ipsum dolor sit amet, consectetur adipiscing elit."
    match field with
    | none => .str paragraph0
    | some f =>
      let maxLength : Option Int :=
        if f.maxLengthProp ≠ 0 then some f.maxLengthProp
        else match f.maxlengthAttr with
          | some a => if a ≠ "" then parseIntJS a else none
          | none => none
      let actualLimit : Option Int :=
        match firstCharLimit (strLower f.parentText).data with
        | some tl =>
          if 0 < tl then
            match maxLength with
            | some m => if m ≠ 0 then some (min m (tl : Int)) else some (tl : Int)
            | none => some (tl : Int)
          else maxLength
        | none => maxLength
      match actualLimit with
      | some al =>
        if 0 < al then
          let maxLen := al
          let paragraph1 :=
            if maxLen < 50 then
              if fk.hasLoremWords then fk.loremWordsJoined (min (maxLen / 5) 10)
              else "Sample text"
            else if maxLen < 200 then
              if fk.hasLoremSentence then fk.loremSentence (min (maxLen / 8) 20)
              else "Sample sentence text."
            else paragraph0
          .str (if (paragraph1.length : Int) > maxLen then jsSlice0 paragraph1 maxLen.toNat
            else paragraph1)
        else .str paragraph0
      | none => .str paragraph0
  else if fieldType = "select" then .str (handleSelectField field (env.rand 0))
  else if fieldType = "checkbox" then .bool (decide ((1 : ℚ) / 2 < env.rand 0))
  else if fieldType = "radio" then .bool (decide ((1 : ℚ) / 2 < env.rand 0))
  else
    let name := match field with | some f => (strLower f.name) | none => ""
    if containsStr name "username" then
      .str (if fk.hasInternetUserName then fk.internetUserName
        else "user_" ++ jsNumToString (randomInt fk env 1000 9999))
    else if containsStr name "age" then .num (randomInt fk env 18 80)
    else .str (if fk.hasLoremWords then fk.loremWords2 else "Sample Text")

/-- The Date facilities applyConstraints uses: parse is new Date(s)
yielding a time value (none models an invalid date), toISODate is
toISOString().split("T")[0] of a time value. -/
structure DateOps where
  parse : String → Option Int
  toISODate : Int → String

/-- A concrete DateOps for closed statements about non-date controls,
on which the date branch of applyConstraints is never reached. -/
def trivialDateOps : DateOps :=
  { parse := fun _ => none
    toISODate := fun _ => "" }

/-- The regex /^\d{4}-\d{2}-\d{2}$/ of applyConstraints. -/
def isISODate (s : String) : Bool :=
  match s.data with
  | [a, b, c, d, '-', e, g, '-', h, i] =>
    a.isDigit && b.isDigit && c.isDigit && d.isDigit &&
      e.isDigit && g.isDigit && h.isDigit && i.isDigit
  | _ => false

/-- The maxLength computation at the top of applyConstraints: a non-empty
maxlength attribute is parsed (possibly to NaN), otherwise the maxLength
property (a number, with zero staying zero under the or-zero fallback). -/
def maxLengthVal (f : Field) : Option Int :=
  match f.maxlengthAttr with
  | some a => if a ≠ "" then parseIntJS a else some f.maxLengthProp
  | none => some f.maxLengthProp

/-- The text-like condition of the truncation branch of applyConstraints. -/
def textLikeType (f : Field) : Bool :=
  (strLower f.tagName) = "textarea" || f.type = "text" || f.type = "email" ||
    f.type = "url" || f.type = "password" || f.type = "search" || f.type = "tel"

/-- The declared minimum of a numeric control as applyConstraints reads it:
Number(field.min) when the attribute is non-empty; none models both an
absent attribute and a NaN parse, which behave identically in the clamp
(every NaN comparison is false). -/
def declaredMin (f : Field) : Option ℚ :=
  if f.min ≠ "" then jsNumber f.min else none

/-- The declared maximum of a numeric control as applyConstraints reads it. -/
def declaredMax (f : Field) : Option ℚ :=
  if f.max ≠ "" then jsNumber f.max else none

/-- The numeric coercion of the clamp branch: a number is itself, a string
goes through Number, a boolean is 0 or 1, null cannot occur (filtered at
entry); none models NaN. -/
def numParse (v : JSVal) : Option ℚ :=
  match v with
  | .num n => some n
  | .str s => jsNumber s
  | .bool b => some (if b then 1 else 0)
  | .null => some 0

/-- The date-branch body of applyConstraints: normalize a non-ISO value
through Date parsing, then clamp against parsed min/max attributes using
the time value of the (normalized) value; an unparseable value or bound
leaves the value unchanged. -/
def dateAdjust (dops : DateOps) (f : Field) (value : String) : String :=
  let v :=
    if !isISODate value && value ≠ "" then
      match dops.parse value with
      | some t => dops.toISODate t
      | none => value
    else value
  let minD : Option Int := if f.min ≠ "" then dops.parse f.min else none
  let maxD : Option Int := if f.max ≠ "" then dops.parse f.max else none
  match dops.parse v with
  | none => v
  | some dv =>
    let v1 := if (match minD with | some m => decide (dv < m) | none => false) then f.min else v
    if (match maxD with | some m => decide (m < dv) | none => false) then f.max else v1

/-- applyConstraints from the content script: null passes through; string
values on text-like controls are truncated to the declared maximum length;
values on number controls are clamped into the declared min/max bounds;
string values on date controls are normalized and clamped.  The fieldType
argument is unused, as in the source. -/
def applyConstraints (dops : DateOps) (f : Field) (value : JSVal) (_fieldType : String) : JSVal :=
  match value with
  | .null => .null
  | v =>
    let maxLength := maxLengthVal f
    let v1 : JSVal :=
      match v with
      | .str s =>
        if textLikeType f then
          match maxLength with
          | some m => if 0 < m ∧ m < (s.length : Int) then .str (jsSlice0 s m.toNat) else .str s
          | none => .str s
        else .str s
      | x => x
    let v2 : JSVal :=
      if f.type = "number" then
        match numParse v1 with
        | some n =>
          let n1 := match declaredMin f with
            | some mn => if n < mn then mn else n
            | none => n
          let n2 := match declaredMax f with
            | some mx => if mx < n1 then mx else n1
            | none => n1
          .num n2
        | none => v1
      else v1
    if f.type = "date" then
      match v2 with
      | .str s => .str (dateAdjust dops f s)
      | x => x
    else v2

/-- The per-call options object accepted by fillForms; absent keys are
undefined.  skipHidden is not a key the content script ever reads; it is
listed because the specification names it. -/
structure FillOptions where
  visualFeedback : Option Bool := none
  skipHidden : Option Bool := none
  skipHiddenFields : Option Bool := none
  fillDelay : Option Nat := none
  enabledFieldTypes : Option (List (String × Bool)) := none
deriving Repr

/-- The result of the spread merge of options over settings in fillForms.
The settings object has no visualFeedback or skipHidden key, so those
resolve to the option value or undefined (falsy). -/
structure MergedFillConfig where
  visualFeedback : Bool
  skipHidden : Bool
  skipHiddenFields : Bool
  fillDelay : Nat
  enabledFieldTypes : List (String × Bool)
deriving Repr

/-- The spread merge of fillForms.  Only visualFeedback and fillDelay of
the merged object are ever read (by fillField); the fillability predicate
reads the persisted settings directly. -/
def mergeFillOptions (s : Settings) (o : FillOptions) : MergedFillConfig :=
  { visualFeedback := o.visualFeedback.getD false
    skipHidden := o.skipHidden.getD false
    skipHiddenFields := o.skipHiddenFields.getD s.skipHiddenFields
    fillDelay := o.fillDelay.getD s.fillDelay
    enabledFieldTypes := o.enabledFieldTypes.getD s.enabledFieldTypes }

/-- The candidate test the fill loop applies to each inventory entry:
fillable under the persisted settings and currently empty. -/
def fillCandidate (s : Settings) (f : Field) : Bool :=
  isFieldFillable s f && isFieldEmpty f

/-- Math.round(processed / total * 100) on natural inputs:
floor(100 p / t + 1/2). -/
def jsRound (p total : Nat) : Nat :=
  (200 * p + total) / (2 * total)

/-- Accumulated observable outcome of the fill loop. -/
structure LoopOut where
  processed : Nat
  skipped : Nat
  errors : List (String × String)
  progress : List Nat
deriving DecidableEq, Repr

/-- The per-field loop of fillForms over the scanned inventory.  Each
entry carries the control together with the environment fact of whether
its generation-and-write step throws (and the thrown message).  A
non-candidate is counted skipped; a throwing candidate is recorded in the
error list and the loop continues; a successful candidate increments the
processed count and emits one progress value.  Each control occurs once in
the inventory and a fill writes only the control being filled, so the
candidate test of a later entry observes that entry's initial state. -/
def fillLoop (s : Settings) (total : Nat) :
    List (Field × Option String) → Nat → LoopOut
  | [], _ => { processed := 0, skipped := 0, errors := [], progress := [] }
  | item :: rest, processedSoFar =>
    if fillCandidate s item.1 then
      match item.2 with
      | some msg =>
        let r := fillLoop s total rest processedSoFar
        { r with errors := (getFieldIdentifier item.1, msg) :: r.errors }
      | none =>
        let r := fillLoop s total rest (processedSoFar + 1)
        { r with processed := r.processed + 1,
                 progress := jsRound (processedSoFar + 1) total :: r.progress }
    else
      let r := fillLoop s total rest processedSoFar
      { r with skipped := r.skipped + 1 }

/-- The summary fillForms returns, extended with the sequence of progress
values emitted through sendProgress during the session. -/
structure FillSummary where
  success : Bool
  fieldsProcessed : Nat
  fieldsSkipped : Nat
  duration : Nat
  errors : List (String × String)
  progressEvents : List Nat
deriving DecidableEq, Repr

/-- fillForms from the content script, over a freshly scanned inventory:
merge the options over the settings, count the fillable-and-empty subset,
return the zero summary at once when that subset is empty, otherwise run
the per-field loop.  The wall-clock duration is an environment input. -/
def fillForms (s : Settings) (opts : FillOptions) (duration : Nat)
    (inventory : List (Field × Option String)) : FillSummary :=
  let _fillOptions := mergeFillOptions s opts
  let totalFields := (inventory.filter (fun item => fillCandidate s item.1)).length
  if totalFields = 0 then
    { success := true, fieldsProcessed := 0, fieldsSkipped := inventory.length,
      duration := duration, errors := [], progressEvents := [] }
  else
    let r := fillLoop s totalFields inventory 0
    { success := true, fieldsProcessed := r.processed, fieldsSkipped := r.skipped,
      duration := duration, errors := r.errors, progressEvents := r.progress }

/-- The input types clearForms never touches. -/
def clearSkipType (type : String) : Bool :=
  type = "button" || type = "submit" || type = "reset" ||
    type = "image" || type = "file"

/-- The eligibility test of clearForms: not disabled or readonly, no
captcha-like name or id, and not a button-like or file input. -/
def clearEligible (f : Field) : Bool :=
  !(f.disabled || f.readOnly) &&
  !(containsStr (strLower f.name) "captcha" || containsStr (strLower f.id) "captcha" ||
    containsStr (strLower f.name) "recaptcha" || containsStr (strLower f.id) "recaptcha") &&
  !(clearSkipType (strLower f.type))

/-- The reset clearForms applies to one eligible control: checkbox/radio
unchecked; a select takes its empty option when one exists, loses its
selection otherwise; every other control gets the empty string through the
native value setter. -/
def clearField (f : Field) : Field :=
  let tag := (strLower f.tagName)
  let type := (strLower f.type)
  if type = "checkbox" || type = "radio" then { f with checked := false }
  else if tag = "select" then
    if f.options.any (fun o => o.value = "") then setSelectValue f ""
    else if 0 < f.options.length then { f with selectedIndex := none }
    else setSelectValue f ""
  else { f with value := "" }

/-- One step of the clearForms iteration: eligible controls are reset,
others are untouched. -/
def clearStep (f : Field) : Field :=
  if clearEligible f then clearField f else f

/-- The document state after clearForms. -/
def clearDoc (doc : List Field) : List Field :=
  doc.map clearStep

/-- The result object of clearForms. -/
structure ClearResult where
  success : Bool
  fieldsCleared : Nat
deriving DecidableEq, Repr

/-- clearForms from the content script: iterate every control in the
document, reset the eligible ones, count them, and report success. -/
def clearForms (doc : List Field) : List Field × ClearResult :=
  (clearDoc doc, { success := true, fieldsCleared := (doc.filter clearEligible).length })

/-- A concrete environment: a fixed date and degenerate random draws. -/
def envX : JSEnv := { today := "2026-10-12", rand := fun _ => 0, randB36 := "" }

/-- The absent backend (window.faker undefined). -/
def fkOff : Faker := {}

/-- A present backend with no probed capability beyond availability. -/
def fkOn : Faker := { available := true }

/-- A date input control. -/
def fldDate : Field := { type := "date" }

/-- An input with explicit type number whose name matches the email
keyword rule of the classifier. -/
def fldNumEmail : Field := { type := "number", name := "email" }

/-- An input with explicit type number and no keyword signal matching any
rule before the number rule. -/
def fldQty : Field := { type := "number", name := "quantity" }

/-- A select whose single option has a whitespace value and a non-empty
label. -/
def selWS : Field :=
  { tagName := "select"
    type := "select-one"
    options := [{ value := " ", textContent := "x" }] }

/-- The select of the specification scenario: a placeholder option plus
red and blue. -/
def selRB : Field :=
  { tagName := "select"
    type := "select-one"
    options := [{ value := "", textContent := "Choose" },
      { value := "red", textContent := "red" },
      { value := "blue", textContent := "blue" }] }

/-- A number input declaring min 5 and max 3 (inconsistent bounds). -/
def fldNumBad : Field := { type := "number", min := "5", max := "3" }

/-- A number input declaring min 1 and max 10. -/
def fldNumGood : Field := { type := "number", min := "1", max := "10" }

/-- A text input declaring maxlength 3. -/
def fldTxt : Field := { type := "text", maxlengthAttr := some "3" }

/-- A plain empty text input named foo. -/
def fldFoo : Field := { name := "foo" }

/-- A plain empty text input named bar. -/
def fldBar : Field := { name := "bar" }

/-- An empty text input hidden by computed style and layout detachment. -/
def fldHidden : Field := { name := "foo", displayNone := true, offsetParentNull := true }

/-- Fill options asking not to skip hidden controls, under both the name
the specification uses and the name the persisted setting uses. -/
def optsNoSkip : FillOptions := { skipHidden := some false, skipHiddenFields := some false }

/-- The default settings with the hidden-field skip turned off. -/
def settingsNoHide : Settings := { defaultSettings with skipHiddenFields := false }

/-- A checked checkbox control. -/
def cbChecked : Field := { type := "checkbox", checked := true }

/-- A disabled text input carrying a value. -/
def fldDisabled : Field := { name := "locked", value := "keep", disabled := true }

/-- A concrete document for the clear-session witness. -/
def docX : List Field := [cbChecked, selRB, fldTxt, fldDisabled]

theorem jsSlice0_length (s : String) (n : Nat) : (jsSlice0 s n).length = min n s.length := by
  show (s.data.take n).length = min n s.data.length
  exact List.length_take n s.data

theorem jsRound_mono (t : Nat) {p q : Nat} (h : p ≤ q) : jsRound p t ≤ jsRound q t := by
  unfold jsRound
  exact Nat.div_le_div_right (by omega)

theorem jsRound_total {t : Nat} (h : 0 < t) : jsRound t t = 100 := by
  unfold jsRound
  exact Nat.div_eq_of_lt_le (by omega) (by omega)

/-- C1: for every control whose semantic kind is date-like, the generator
returns the empty string whenever the faker backend is available, and the
fillability predicate rejects the control under every settings object;
date fields are therefore never populated by the fill flow.  (When the
backend is absent the static fallback table instead yields the current
date string; see the counterexample.) -/
theorem claimC1_amended :
    (∀ (fk : Faker) (env : JSEnv) (field : Option Field),
      fk.available = true → generateFakeData fk env "date" field = JSVal.str "") ∧
    (∀ (s : Settings) (f : Field),
      detectFieldType f = "date" → isFieldFillable s f = false) := by
  constructor
  · intro fk env field h
    simp [generateFakeData, h]
  · intro s f h
    simp [isFieldFillable, h]

/-- C1 witness: with an available backend the date kind generates the
empty string, and a concrete date input is not fillable under the default
settings. -/
theorem claimC1_witness :
    generateFakeData fkOn envX "date" none = JSVal.str "" ∧
      isFieldFillable defaultSettings fldDate = false :=
  ⟨claimC1_amended.1 fkOn envX none rfl,
   claimC1_amended.2 defaultSettings fldDate (by decide)⟩

/-- C1 counterexample: with the backend unavailable, the generator falls
back to the static table, whose date entry is the current date — a
non-empty string — contradicting the claim that generate returns the
empty string for date kinds regardless of backend availability. -/
theorem claimC1_counterexample :
    generateFakeData fkOff envX "date" none = JSVal.str "2026-10-12" ∧
      ("2026-10-12" : String) ≠ "" := by
  constructor
  · decide
  · decide

/-- C2: the classifier applies its rules as a fixed first-match chain, but
each rule tests the explicit type attribute OR the keyword signal, so an
explicit type only takes precedence over rules that come later in the
chain.  An explicit type email is always classified email (first rule); an
explicit type number is classified number only when no earlier rule's
keyword signal matches. -/
theorem claimC2_amended :
    (∀ f : Field, strLower f.type = "email" → detectFieldType f = "email") ∧
    (∀ f : Field, strLower f.type = "number" →
      testAny (allTextOf f) ["email", "e-mail"] = false →
      testAny (allTextOf f) ["password", "pwd", "pass"] = false →
      testAny (allTextOf f) ["phone", "tel", "mobile", "cell"] = false →
      testAny (allTextOf f) ["url", "website", "homepage", "link"] = false →
      testAny (allTextOf f) ["date", "birth", "dob", "birthday"] = false →
      detectFieldType f = "number") := by
  constructor
  · intro f h
    simp [detectFieldType, h]
  · intro f h h1 h2 h3 h4 h5
    simp [detectFieldType, h, h1, h2, h3, h4, h5]

/-- C2 witness: a type number input with a neutral name is classified as
the numeric kind, and a type email input is classified as email. -/
theorem claimC2_witness :
    detectFieldType fldQty = "number" ∧
      detectFieldType { fldQty with type := "email" } = "email" :=
  ⟨claimC2_amended.2 fldQty (by decide) (by decide) (by decide) (by decide) (by decide)
      (by decide),
   claimC2_amended.1 { fldQty with type := "email" } (by decide)⟩

/-- C2 counterexample: an input with explicit type number whose name is
email is classified email by the earlier keyword rule, contradicting the
claim that the explicit type attribute takes precedence over keyword
inference. -/
theorem claimC2_counterexample :
    detectFieldType fldNumEmail = "email" ∧ ("email" : String) ≠ "number" := by
  constructor
  · decide
  · decide

theorem fillLoop_processed (s : Settings) (total : Nat) :
    ∀ (inv : List (Field × Option String)) (p0 : Nat),
    (fillLoop s total inv p0).processed =
      (inv.filter (fun it => fillCandidate s it.1 && it.2.isNone)).length := by
  intro inv
  induction inv with
  | nil => intro p0; rfl
  | cons item rest ih =>
    intro p0
    by_cases hc : fillCandidate s item.1 = true
    · cases h2 : item.2 with
      | some msg => simp [fillLoop, hc, h2, ih]
      | none => simp [fillLoop, hc, h2, ih]
    · simp [fillLoop, hc, ih]

theorem fillLoop_skipped (s : Settings) (total : Nat) :
    ∀ (inv : List (Field × Option String)) (p0 : Nat),
    (fillLoop s total inv p0).skipped =
      (inv.filter (fun it => !(fillCandidate s it.1))).length := by
  intro inv
  induction inv with
  | nil => intro p0; rfl
  | cons item rest ih =>
    intro p0
    by_cases hc : fillCandidate s item.1 = true
    · cases h2 : item.2 with
      | some msg => simp [fillLoop, hc, h2, ih]
      | none => simp [fillLoop, hc, h2, ih]
    · simp [fillLoop, hc, ih]

theorem fillLoop_errors (s : Settings) (total : Nat) :
    ∀ (inv : List (Field × Option String)) (p0 : Nat),
    (fillLoop s total inv p0).errors =
      inv.filterMap (fun it =>
        if fillCandidate s it.1 = true then
          it.2.map (fun m => (getFieldIdentifier it.1, m))
        else none) := by
  intro inv
  induction inv with
  | nil => intro p0; rfl
  | cons item rest ih =>
    intro p0
    by_cases hc : fillCandidate s item.1 = true
    · cases h2 : item.2 with
      | some msg => simp [fillLoop, hc, h2, ih]
      | none => simp [fillLoop, hc, h2, ih]
    · simp [fillLoop, hc, ih]

theorem fillLoop_partition (s : Settings) (total : Nat) :
    ∀ (inv : List (Field × Option String)) (p0 : Nat),
    (fillLoop s total inv p0).processed + (fillLoop s total inv p0).skipped +
      (fillLoop s total inv p0).errors.length = inv.length := by
  intro inv
  induction inv with
  | nil => intro p0; rfl
  | cons item rest ih =>
    intro p0
    by_cases hc : fillCandidate s item.1 = true
    · cases h2 : item.2 with
      | some msg =>
        have := ih p0
        simp [fillLoop, hc, h2] at this ⊢
        omega
      | none =>
        have := ih (p0 + 1)
        simp [fillLoop, hc, h2] at this ⊢
        omega
    · have := ih p0
      simp [fillLoop, hc] at this ⊢
      omega

theorem fillLoop_progress (s : Settings) (total : Nat) :
    ∀ (inv : List (Field × Option String)) (p0 : Nat),
    (fillLoop s total inv p0).progress =
      (List.range (fillLoop s total inv p0).processed).map
        (fun i => jsRound (p0 + i + 1) total) := by
  intro inv
  induction inv with
  | nil => intro p0; rfl
  | cons item rest ih =>
    intro p0
    by_cases hc : fillCandidate s item.1 = true
    · cases h2 : item.2 with
      | some msg => simp [fillLoop, hc, h2, ih]
      | none =>
        simp only [fillLoop, hc, h2, if_pos, ih]
        rw [List.range_succ_eq_map]
        simp only [List.map_cons, List.map_map, Nat.add_zero]
        congr 1
        refine List.map_congr_left ?_
        intro a ha
        simp only [Function.comp]
        congr 1
        omega
    · simp [fillLoop, hc, ih]

theorem fillForms_zero (s : Settings) (opts : FillOptions) (d : Nat)
    (inv : List (Field × Option String))
    (h : (inv.filter (fun it => fillCandidate s it.1)).length = 0) :
    fillForms s opts d inv =
      { success := true, fieldsProcessed := 0, fieldsSkipped := inv.length,
        duration := d, errors := [], progressEvents := [] } := by
  simp [fillForms, h]

theorem fillForms_loop (s : Settings) (opts : FillOptions) (d : Nat)
    (inv : List (Field × Option String))
    (h : ¬((inv.filter (fun it => fillCandidate s it.1)).length = 0)) :
    fillForms s opts d inv =
      { success := true,
        fieldsProcessed :=
          (fillLoop s ((inv.filter (fun it => fillCandidate s it.1)).length) inv 0).processed,
        fieldsSkipped :=
          (fillLoop s ((inv.filter (fun it => fillCandidate s it.1)).length) inv 0).skipped,
        duration := d,
        errors :=
          (fillLoop s ((inv.filter (fun it => fillCandidate s it.1)).length) inv 0).errors,
        progressEvents :=
          (fillLoop s ((inv.filter (fun it => fillCandidate s it.1)).length) inv 0).progress } := by
  simp [fillForms, h]

theorem getLast?_range_map (f : ℕ → ℕ) {k : ℕ} (h : 0 < k) :
    ((List.range k).map f).getLast? = some (f (k - 1)) := by
  obtain ⟨j, rfl⟩ : ∃ j, k = j + 1 := ⟨k - 1, by omega⟩
  rw [List.range_succ, List.map_append]
  simp

/-- C3: hidden-control exclusion during fill is governed solely by the
persisted skipHiddenFields setting read by the fillability predicate; the
options argument of fill (whether under the name skipHidden or
skipHiddenFields) has no effect on which controls are processed, skipped
or errored, nor on the emitted progress. -/
theorem claimC3_amended :
    (∀ (s : Settings) (f : Field), s.skipHiddenFields = true →
      (f.displayNone = true ∨ f.visibilityHidden = true ∨ f.type = "hidden" ∨
        f.offsetParentNull = true) →
      isFieldFillable s f = false) ∧
    (∀ (s : Settings) (o1 o2 : FillOptions) (d : Nat)
        (inv : List (Field × Option String)),
      (fillForms s o1 d inv).fieldsProcessed = (fillForms s o2 d inv).fieldsProcessed ∧
      (fillForms s o1 d inv).fieldsSkipped = (fillForms s o2 d inv).fieldsSkipped ∧
      (fillForms s o1 d inv).errors = (fillForms s o2 d inv).errors ∧
      (fillForms s o1 d inv).progressEvents = (fillForms s o2 d inv).progressEvents) := by
  constructor
  · intro s f hs hv
    rcases hv with h | h | h | h <;> simp [isFieldFillable, hs, h]
  · intro s o1 o2 d inv
    exact ⟨rfl, rfl, rfl, rfl⟩

/-- C3 witness: a concrete hidden empty text input is not fillable under
the default settings, and a fill call passing skipHidden false behaves
exactly like one passing no options. -/
theorem claimC3_witness :
    isFieldFillable defaultSettings fldHidden = false ∧
      (fillForms defaultSettings optsNoSkip 0 [(fldHidden, none)]).fieldsProcessed =
        (fillForms defaultSettings {} 0 [(fldHidden, none)]).fieldsProcessed :=
  ⟨claimC3_amended.1 defaultSettings fldHidden rfl (Or.inl rfl),
   (claimC3_amended.2 defaultSettings optsNoSkip {} 0 [(fldHidden, none)]).1⟩

/-- C3 counterexample: on an inventory holding one hidden empty text
input, a fill invocation whose options set skipHidden (and even
skipHiddenFields) to false still fills nothing, while flipping the
persisted setting fills the control — so the option boolean does not
control hidden-field exclusion, contradicting the claim. -/
theorem claimC3_counterexample :
    (fillForms defaultSettings optsNoSkip 0 [(fldHidden, none)]).fieldsProcessed = 0 ∧
      (fillForms defaultSettings {} 0 [(fldHidden, none)]).fieldsProcessed = 0 ∧
      (fillForms settingsNoHide {} 0 [(fldHidden, none)]).fieldsProcessed = 1 :=
  ⟨by decide, by decide, by decide⟩

/-- C4: within one fill session with a non-empty candidate subset, the
emitted progress sequence is exactly round(100 k / total) for k = 1 up to
the number of successfully processed fields, hence monotonically
non-decreasing; when every candidate field is filled without a per-field
error the final emitted value is 100.  (When a candidate throws, no value
is emitted for it, so the final emitted value can fall short of 100; the
counterexample shows a session ending at 50.) -/
theorem claimC4_amended (s : Settings) (opts : FillOptions) (d : Nat)
    (inv : List (Field × Option String)) (t : Nat)
    (ht : t = (inv.filter (fun it => fillCandidate s it.1)).length) (hpos : 0 < t) :
    (fillForms s opts d inv).progressEvents =
      (List.range (fillForms s opts d inv).fieldsProcessed).map (fun i => jsRound (i + 1) t) ∧
    List.Pairwise (· ≤ ·) (fillForms s opts d inv).progressEvents ∧
    ((∀ it ∈ inv, fillCandidate s it.1 = true → it.2 = none) →
      (fillForms s opts d inv).progressEvents.getLast? = some 100) := by
  have hne : ¬((inv.filter (fun it => fillCandidate s it.1)).length = 0) := by omega
  have hshape : (fillForms s opts d inv).progressEvents =
      (List.range (fillForms s opts d inv).fieldsProcessed).map (fun i => jsRound (i + 1) t) := by
    rw [fillForms_loop s opts d inv hne]
    rw [← ht]
    rw [fillLoop_progress]
    refine List.map_congr_left ?_
    intro a ha
    congr 1
    omega
  refine ⟨hshape, ?_, ?_⟩
  · rw [hshape]
    refine List.Pairwise.map _ ?_ (List.pairwise_lt_range _)
    intro a b hab
    exact jsRound_mono t (by omega)
  · intro hall
    have hproc : (fillForms s opts d inv).fieldsProcessed = t := by
      rw [fillForms_loop s opts d inv hne]
      show (fillLoop s _ inv 0).processed = t
      rw [fillLoop_processed]
      rw [ht]
      congr 1
      refine List.filter_congr ?_
      intro it hit
      by_cases hc : fillCandidate s it.1 = true
      · simp [hc, hall it hit hc]
      · simp [hc]
    rw [hshape, hproc, getLast?_range_map _ hpos]
    congr 1
    have htt : t - 1 + 1 = t := by omega
    rw [htt, jsRound_total hpos]

/-- C4 witness: a session with two candidate fields and no errors emits
progress ending at 100. -/
theorem claimC4_witness :
    (fillForms defaultSettings {} 0 [(fldFoo, none), (fldBar, none)]).progressEvents.getLast? =
      some 100 :=
  (claimC4_amended defaultSettings {} 0 [(fldFoo, none), (fldBar, none)] 2
    (by decide) (by decide)).2.2 (by decide)

/-- C4 counterexample: a session with two candidate fields whose second
throws emits the single progress value 50, so the final emitted value is
not 100, contradicting the claim for sessions with N greater than zero
fillable fields. -/
theorem claimC4_counterexample :
    0 < ((([(fldFoo, none), (fldBar, some "boom")] : List (Field × Option String)).filter
        (fun it => fillCandidate defaultSettings it.1)).length) ∧
      (fillForms defaultSettings {} 0
        [(fldFoo, none), (fldBar, some "boom")]).progressEvents = [50] ∧
      (50 : ℕ) ≠ 100 :=
  ⟨by decide, by decide, by decide⟩

/-- C5: the fill session always returns a success summary; a candidate
field whose fill step throws is recorded in the error list as its
identifier plus the thrown message while the loop continues (the processed
count is the count of all non-throwing candidates, including those after
an error); and when the fillable-and-empty subset is empty the session
returns success with zero processed fields, every inventory entry counted
skipped, and an empty error list. -/
theorem claimC5 (s : Settings) (opts : FillOptions) (d : Nat)
    (inv : List (Field × Option String)) :
    (fillForms s opts d inv).success = true ∧
    (fillForms s opts d inv).errors = inv.filterMap (fun it =>
      if fillCandidate s it.1 = true then
        it.2.map (fun m => (getFieldIdentifier it.1, m))
      else none) ∧
    (fillForms s opts d inv).fieldsProcessed =
      (inv.filter (fun it => fillCandidate s it.1 && it.2.isNone)).length ∧
    ((inv.filter (fun it => fillCandidate s it.1)).length = 0 →
      fillForms s opts d inv =
        { success := true, fieldsProcessed := 0, fieldsSkipped := inv.length,
          duration := d, errors := [], progressEvents := [] }) := by
  by_cases h : (inv.filter (fun it => fillCandidate s it.1)).length = 0
  · have hnil : inv.filter (fun it => fillCandidate s it.1) = [] :=
      List.length_eq_zero.mp h
    have hnone : ∀ it ∈ inv, ¬(fillCandidate s it.1 = true) := by
      intro it hit hc
      have : it ∈ inv.filter (fun it => fillCandidate s it.1) :=
        List.mem_filter.mpr ⟨hit, hc⟩
      simp [hnil] at this
    refine ⟨?_, ?_, ?_, ?_⟩
    · simp [fillForms, h]
    · simp only [fillForms, h, if_pos]
      symm
      rw [List.filterMap_eq_nil_iff]
      intro it hit
      simp [hnone it hit]
    · simp only [fillForms, h, if_pos]
      symm
      rw [List.length_eq_zero, List.filter_eq_nil_iff]
      intro it hit
      simp [hnone it hit]
    · intro _
      simp [fillForms, h]
  · refine ⟨?_, ?_, ?_, ?_⟩
    · simp [fillForms, h]
    · simp only [fillForms, h, if_neg, not_false_iff]
      exact fillLoop_errors s _ inv 0
    · simp only [fillForms, h, if_neg, not_false_iff]
      exact fillLoop_processed s _ inv 0
    · intro hcontra
      exact absurd hcontra h

/-- C5 witness: on a session with one succeeding candidate, one throwing
candidate and one non-candidate, the summary is a success carrying exactly
the thrown error and one processed field; a session whose inventory has no
candidate returns the zero summary. -/
theorem claimC5_witness :
    (fillForms defaultSettings {} 0
        [(fldFoo, none), (fldBar, some "boom"), (fldDisabled, none)]).success = true ∧
    (fillForms defaultSettings {} 0
        [(fldFoo, none), (fldBar, some "boom"), (fldDisabled, none)]).errors =
      [("bar", "boom")] ∧
    (fillForms defaultSettings {} 0
        [(fldFoo, none), (fldBar, some "boom"), (fldDisabled, none)]).fieldsProcessed = 1 ∧
    fillForms defaultSettings {} 0 [(fldDisabled, none)] =
      { success := true, fieldsProcessed := 0, fieldsSkipped := 1, duration := 0,
        errors := [], progressEvents := [] } :=
  ⟨(claimC5 defaultSettings {} 0
      [(fldFoo, none), (fldBar, some "boom"), (fldDisabled, none)]).1,
   ((claimC5 defaultSettings {} 0
      [(fldFoo, none), (fldBar, some "boom"), (fldDisabled, none)]).2.1).trans (by decide),
   ((claimC5 defaultSettings {} 0
      [(fldFoo, none), (fldBar, some "boom"), (fldDisabled, none)]).2.2.1).trans (by decide),
   (claimC5 defaultSettings {} 0 [(fldDisabled, none)]).2.2.2 (by decide)⟩

/-- C10: the summary counters of every fill invocation partition the
scanned inventory: processed plus skipped plus the number of recorded
errors equals the number of inventory entries. -/
theorem claimC10 (s : Settings) (opts : FillOptions) (d : Nat)
    (inv : List (Field × Option String)) :
    (fillForms s opts d inv).fieldsProcessed + (fillForms s opts d inv).fieldsSkipped +
      (fillForms s opts d inv).errors.length = inv.length := by
  by_cases h : (inv.filter (fun it => fillCandidate s it.1)).length = 0
  · simp [fillForms, h]
  · simp only [fillForms, h, if_neg, not_false_iff]
    exact fillLoop_partition s _ inv 0

/-- C6: on a text-like control (a textarea, or an input of type text,
email, url, password, search or tel) declaring a positive maximum length
L, the constraint enforcer truncates every string value to at most L
characters. -/
theorem claimC6 (dops : DateOps) (f : Field) (v : String) (k : String) (L : Int)
    (htext : (strLower f.tagName = "textarea" ∧ f.type = "textarea") ∨
      f.type ∈ (["text", "email", "url", "password", "search", "tel"] : List String))
    (hml : maxLengthVal f = some L) (hpos : 0 < L) :
    ∃ w : String, applyConstraints dops f (JSVal.str v) k = JSVal.str w ∧
      (w.length : Int) ≤ L := by
  have hcases : (strLower f.tagName = "textarea" ∧ f.type = "textarea") ∨
      f.type = "text" ∨ f.type = "email" ∨ f.type = "url" ∨ f.type = "password" ∨
      f.type = "search" ∨ f.type = "tel" := by
    rcases htext with h | h
    · exact Or.inl h
    · right; simpa using h
  have hnum : ¬(f.type = "number") := by
    rcases hcases with ⟨_, h⟩ | h | h | h | h | h | h <;> rw [h] <;> decide
  have hdate : ¬(f.type = "date") := by
    rcases hcases with ⟨_, h⟩ | h | h | h | h | h | h <;> rw [h] <;> decide
  have htl : textLikeType f = true := by
    unfold textLikeType
    rcases hcases with ⟨h1, _⟩ | h | h | h | h | h | h
    · simp [h1]
    all_goals simp [h]
  have key : applyConstraints dops f (JSVal.str v) k =
      (if 0 < L ∧ L < (v.length : Int) then JSVal.str (jsSlice0 v L.toNat)
       else JSVal.str v) := by
    by_cases hcond : 0 < L ∧ L < (v.length : Int)
    · simp [applyConstraints, hml, htl, hcond, hnum, hdate]
    · simp [applyConstraints, hml, htl, hcond, hnum, hdate]
  by_cases hcond : 0 < L ∧ L < (v.length : Int)
  · refine ⟨jsSlice0 v L.toNat, by rw [key, if_pos hcond], ?_⟩
    rw [jsSlice0_length]
    omega
  · refine ⟨v, by rw [key, if_neg hcond], ?_⟩
    push_neg at hcond
    have := hcond hpos
    omega

/-- C6 witness: a text input with maxlength 3 truncates a six character
string to at most three characters. -/
theorem claimC6_witness :
    ∃ w : String, applyConstraints trivialDateOps fldTxt (JSVal.str "abcdef") "text" =
      JSVal.str w ∧ (w.length : Int) ≤ 3 :=
  claimC6 trivialDateOps fldTxt "abcdef" "text" 3 (Or.inr (by decide)) (by decide) (by decide)

/-- The clamp the enforcer applies to a number control: raise the parsed
value to the declared minimum, then lower it to the declared maximum. -/
theorem applyConstraints_number (dops : DateOps) (f : Field) (v : JSVal) (k : String) (q : ℚ)
    (hty : f.type = "number") (hta : ¬(strLower f.tagName = "textarea"))
    (hnull : v ≠ JSVal.null) (hq : numParse v = some q) :
    applyConstraints dops f v k = JSVal.num
      (match declaredMax f with
       | some mx =>
         if mx < (match declaredMin f with | some mn => if q < mn then mn else q | none => q)
         then mx
         else (match declaredMin f with | some mn => if q < mn then mn else q | none => q)
       | none => (match declaredMin f with | some mn => if q < mn then mn else q | none => q)) := by
  have htl : textLikeType f = false := by
    unfold textLikeType
    simp [hty, hta]
  have hdate : ¬(f.type = "date") := by rw [hty]; decide
  cases v with
  | null => exact absurd rfl hnull
  | str sv =>
    have hq2 : jsNumber sv = some q := hq
    simp [applyConstraints, htl, hty, hdate, numParse, hq2]
  | num n =>
    have hq2 : n = q := by simpa [numParse] using hq
    subst hq2
    simp [applyConstraints, htl, hty, hdate, numParse]
  | bool b =>
    have hq2 : (if b then (1 : ℚ) else 0) = q := by simpa [numParse] using hq
    simp [applyConstraints, htl, hty, hdate, numParse, hq2]

/-- C7: on a number control, for every non-null value the enforcer can
parse, the result respects the declared bounds: it lies within [min, max]
whenever both are declared with min at most max, is at least min when only
min is declared, and is at most max when only max is declared.  (With
inconsistent bounds min greater than max the output is max, outside
[min, max]; see the counterexample.) -/
theorem claimC7_amended (dops : DateOps) (f : Field) (v : JSVal) (k : String) (q : ℚ)
    (hty : f.type = "number") (hta : ¬(strLower f.tagName = "textarea"))
    (hnull : v ≠ JSVal.null) (hq : numParse v = some q) :
    (∀ mn mx : ℚ, declaredMin f = some mn → declaredMax f = some mx → mn ≤ mx →
      ∃ w : ℚ, applyConstraints dops f v k = JSVal.num w ∧ mn ≤ w ∧ w ≤ mx) ∧
    (∀ mn : ℚ, declaredMin f = some mn → declaredMax f = none →
      ∃ w : ℚ, applyConstraints dops f v k = JSVal.num w ∧ mn ≤ w) ∧
    (∀ mx : ℚ, declaredMin f = none → declaredMax f = some mx →
      ∃ w : ℚ, applyConstraints dops f v k = JSVal.num w ∧ w ≤ mx) := by
  have key := applyConstraints_number dops f v k q hty hta hnull hq
  refine ⟨?_, ?_, ?_⟩
  · intro mn mx hmn hmx hle
    rw [hmn, hmx] at key
    refine ⟨_, key, ?_, ?_⟩
    · dsimp only
      split_ifs <;> linarith
    · dsimp only
      split_ifs <;> linarith
  · intro mn hmn hmx
    rw [hmn, hmx] at key
    refine ⟨_, key, ?_⟩
    dsimp only
    split_ifs <;> linarith
  · intro mx hmn hmx
    rw [hmn, hmx] at key
    refine ⟨_, key, ?_⟩
    dsimp only
    split_ifs <;> linarith

/-- C7 witness: a number input declaring min 1 and max 10 clamps the value
20 into the interval. -/
theorem claimC7_witness :
    ∃ w : ℚ, applyConstraints trivialDateOps fldNumGood (JSVal.num 20) "number" =
      JSVal.num w ∧ (1 : ℚ) ≤ w ∧ w ≤ 10 :=
  (claimC7_amended trivialDateOps fldNumGood (JSVal.num 20) "number" 20 rfl (by decide)
    (by decide) rfl).1 1 10 (by decide) (by decide) (by decide)

/-- C7 counterexample: a number input declaring min 5 and max 3 maps the
value 4 to 3, which does not lie in the declared interval [5, 3] (its
lower bound fails), contradicting the claim as stated for controls whose
declared minimum exceeds their declared maximum. -/
theorem claimC7_counterexample :
    declaredMin fldNumBad = some 5 ∧ declaredMax fldNumBad = some 3 ∧
      applyConstraints trivialDateOps fldNumBad (JSVal.num 4) "number" = JSVal.num 3 ∧
      ¬((5 : ℚ) ≤ 3 ∧ (3 : ℚ) ≤ 3) :=
  ⟨by decide, by decide, by decide, by decide⟩

theorem validSelectOptions_value_ne (f : Field) {o : SelectOption}
    (ho : o ∈ validSelectOptions f) : o.value ≠ "" := by
  unfold validSelectOptions at ho
  have hp := List.of_mem_filter ho
  simp at hp
  exact hp.1.1

/-- C8: with a uniform draw r in the unit interval, handleSelectField
returns the empty string exactly when no option survives the blank-value
and blank-label filter; otherwise it returns the value of one surviving
option (hence never a blank value), namely the one at index floor of
r times the count — whose preimages in r partition the unit interval into
equal-width slots, one per surviving option, so the choice is uniform. -/
theorem claimC8_amended (f : Field) (r : ℚ) (h0 : 0 ≤ r) (h1 : r < 1) :
    ((handleSelectField (some f) r = "") ↔ (validSelectOptions f).length = 0) ∧
    (0 < (validSelectOptions f).length →
      ∃ o ∈ validSelectOptions f, handleSelectField (some f) r = o.value) ∧
    (∀ i : ℕ, i < (validSelectOptions f).length →
      (((i : ℚ) ≤ r * ((validSelectOptions f).length : ℚ) ∧
          r * ((validSelectOptions f).length : ℚ) < (i : ℚ) + 1) ↔
        (Int.floor (r * ((validSelectOptions f).length : ℚ))).toNat = i)) := by
  by_cases hopt : f.options.length = 0
  · have honil : f.options = [] := List.length_eq_zero.mp hopt
    have hvnil : validSelectOptions f = [] := by simp [validSelectOptions, honil]
    have hres : handleSelectField (some f) r = "" := by
      simp [handleSelectField, hopt]
    refine ⟨by simp [hres, hvnil], ?_, ?_⟩
    · intro hpos
      rw [hvnil] at hpos
      simp at hpos
    · intro i hi
      rw [hvnil] at hi
      simp at hi
  · by_cases hv : (validSelectOptions f).length = 0
    · have hres : handleSelectField (some f) r = "" := by
        simp [handleSelectField, hopt, hv]
      refine ⟨by simp [hres, hv], ?_, ?_⟩
      · intro hpos
        omega
      · intro i hi
        omega
    · have hn : 0 < (validSelectOptions f).length := Nat.pos_of_ne_zero hv
      have hnn : (0 : ℚ) ≤ r * ((validSelectOptions f).length : ℚ) :=
        mul_nonneg h0 (by positivity)
      have hfl0 : 0 ≤ Int.floor (r * ((validSelectOptions f).length : ℚ)) :=
        Int.floor_nonneg.mpr hnn
      have hflt : Int.floor (r * ((validSelectOptions f).length : ℚ)) <
          ((validSelectOptions f).length : ℤ) := by
        rw [Int.floor_lt]
        push_cast
        have hposq : (0 : ℚ) < ((validSelectOptions f).length : ℚ) := by
          exact_mod_cast hn
        have := mul_lt_mul_of_pos_right h1 hposq
        simpa using this
      have hidx : (Int.floor (r * ((validSelectOptions f).length : ℚ))).toNat <
          (validSelectOptions f).length := by omega
      have hres : handleSelectField (some f) r =
          ((validSelectOptions f).getD
            ((Int.floor (r * ((validSelectOptions f).length : ℚ))).toNat)
            { value := "", textContent := "" }).value := by
        simp [handleSelectField, hopt, hv]
      have hgd : (validSelectOptions f).getD
            ((Int.floor (r * ((validSelectOptions f).length : ℚ))).toNat)
            { value := "", textContent := "" } =
          (validSelectOptions f).get
            ⟨(Int.floor (r * ((validSelectOptions f).length : ℚ))).toNat, hidx⟩ := by
        rw [List.getD_eq_getElem _ _ hidx]
        simp
      have hmem : (validSelectOptions f).get
            ⟨(Int.floor (r * ((validSelectOptions f).length : ℚ))).toNat, hidx⟩ ∈
          validSelectOptions f := List.get_mem _ _ _
      have hvne := validSelectOptions_value_ne f hmem
      refine ⟨?_, ?_, ?_⟩
      · constructor
        · intro heq
          rw [hres, hgd] at heq
          exact absurd heq hvne
        · intro h0len
          exact absurd h0len hv
      · intro _
        exact ⟨_, hmem, by rw [hres, hgd]⟩
      · intro i hi
        constructor
        · rintro ⟨hlo, hhi⟩
          have hfe : Int.floor (r * ((validSelectOptions f).length : ℚ)) = (i : ℤ) := by
            rw [Int.floor_eq_iff]
            constructor
            · push_cast
              exact hlo
            · push_cast
              exact hhi
          omega
        · intro hidxeq
          have hfe : Int.floor (r * ((validSelectOptions f).length : ℚ)) = (i : ℤ) := by
            omega
          rw [Int.floor_eq_iff] at hfe
          constructor
          · have := hfe.1
            push_cast at this
            exact this
          · have := hfe.2
            push_cast at this
            exact this

/-- C8 witness: on the select with options empty, red, blue and draw 0,
the result is non-empty and is the value of one of the two surviving
options. -/
theorem claimC8_witness :
    handleSelectField (some selRB) 0 ≠ "" ∧
      ∃ o ∈ validSelectOptions selRB, handleSelectField (some selRB) 0 = o.value :=
  ⟨fun heq =>
      absurd ((claimC8_amended selRB 0 (by norm_num) (by norm_num)).1.mp heq) (by decide),
    (claimC8_amended selRB 0 (by norm_num) (by norm_num)).2.1 (by decide)⟩

/-- C8 counterexample: a select whose only option has the whitespace value
with a non-empty label: an option with non-empty value and label exists,
yet the generator returns the empty string, because the filter compares
values after trimming — contradicting the claim that the empty string is
returned exactly when no option with non-empty value and label exists. -/
theorem claimC8_counterexample :
    (selWS.options.any (fun o => o.value ≠ "" && o.textContent ≠ "")) = true ∧
      handleSelectField (some selWS) 0 = "" :=
  ⟨by decide, by decide⟩

theorem findIdxOpt_spec {α : Type} (p : α → Bool) :
    ∀ (l : List α) (i : Nat), findIdxOpt p l = some i →
      ∃ h : i < l.length, p (l.get ⟨i, h⟩) = true := by
  intro l
  induction l with
  | nil =>
    intro i h
    simp [findIdxOpt] at h
  | cons a t ih =>
    intro i h
    by_cases hp : p a = true
    · simp [findIdxOpt, hp] at h
      subst h
      exact ⟨by simp, by simpa using hp⟩
    · simp [findIdxOpt, hp] at h
      obtain ⟨j, hj, rfl⟩ := h
      obtain ⟨hlt, hpj⟩ := ih j hj
      exact ⟨by simpa using hlt, by simpa using hpj⟩

theorem any_findIdxOpt {α : Type} (p : α → Bool) :
    ∀ l : List α, l.any p = true → ∃ i, findIdxOpt p l = some i := by
  intro l
  induction l with
  | nil => simp
  | cons a t ih =>
    intro h
    by_cases hp : p a = true
    · exact ⟨0, by simp [findIdxOpt, hp]⟩
    · have ht : t.any p = true := by simpa [hp] using h
      obtain ⟨i, hi⟩ := ih ht
      exact ⟨i + 1, by simp [findIdxOpt, hp, hi]⟩

theorem clearField_idem (f : Field) : clearField (clearField f) = clearField f := by
  by_cases h1 : ((strLower f.type) = "checkbox" || (strLower f.type) = "radio") = true
  · have e : clearField f = { f with checked := false } := by
      simp [clearField, h1]
    rw [e]
    simp [clearField, h1]
  · by_cases h2 : (strLower f.tagName) = "select"
    · by_cases h3 : (f.options.any (fun o => o.value = "")) = true
      · have e : clearField f = setSelectValue f "" := by
          simp [clearField, h1, h2, h3]
        rw [e]
        simp [clearField, setSelectValue, h1, h2, h3]
      · by_cases h4 : f.options.length = 0
        · have e : clearField f = setSelectValue f "" := by
            simp [clearField, h1, h2, h3, h4]
          rw [e]
          simp [clearField, setSelectValue, h1, h2, h3, h4]
        · have h4p : 0 < f.options.length := Nat.pos_of_ne_zero h4
          have e : clearField f = { f with selectedIndex := none } := by
            simp [clearField, h1, h2, h3, h4p]
          rw [e]
          simp [clearField, h1, h2, h3, h4p]
    · have e : clearField f = { f with value := "" } := by
        simp [clearField, h1, h2]
      rw [e]
      simp [clearField, h1, h2]

theorem clearField_eligible (f : Field) : clearEligible (clearField f) = clearEligible f := by
  by_cases h1 : ((strLower f.type) = "checkbox" || (strLower f.type) = "radio") = true
  · have e : clearField f = { f with checked := false } := by
      simp [clearField, h1]
    rw [e]
    rfl
  · by_cases h2 : (strLower f.tagName) = "select"
    · by_cases h3 : (f.options.any (fun o => o.value = "")) = true
      · have e : clearField f = setSelectValue f "" := by
          simp [clearField, h1, h2, h3]
        rw [e]
        rfl
      · by_cases h4 : f.options.length = 0
        · have e : clearField f = setSelectValue f "" := by
            simp [clearField, h1, h2, h3, h4]
          rw [e]
          rfl
        · have e : clearField f = { f with selectedIndex := none } := by
            simp [clearField, h1, h2, h3, Nat.pos_of_ne_zero h4]
          rw [e]
          rfl
    · have e : clearField f = { f with value := "" } := by
        simp [clearField, h1, h2]
      rw [e]
      rfl

theorem clearStep_idem (f : Field) : clearStep (clearStep f) = clearStep f := by
  by_cases he : clearEligible f = true
  · have he2 : clearEligible (clearField f) = true := by
      rw [clearField_eligible, he]
    simp [clearStep, he, he2, clearField_idem]
  · simp [clearStep, he]

theorem clearStep_untouched (f : Field) (h : clearEligible f = false) : clearStep f = f := by
  simp [clearStep, h]

theorem clearStep_empty (f : Field) (h : clearEligible f = true) :
    isFieldEmpty (clearStep f) = true := by
  have hstep : clearStep f = clearField f := by simp [clearStep, h]
  rw [hstep]
  by_cases h1 : ((strLower f.type) = "checkbox" || (strLower f.type) = "radio") = true
  · have e : clearField f = { f with checked := false } := by
      simp [clearField, h1]
    rw [e]
    simp [isFieldEmpty, h1]
  · by_cases h2 : (strLower f.tagName) = "select"
    · by_cases h3 : (f.options.any (fun o => o.value = "")) = true
      · have e : clearField f = setSelectValue f "" := by
          simp [clearField, h1, h2, h3]
        rw [e]
        obtain ⟨i, hi⟩ := any_findIdxOpt _ f.options h3
        obtain ⟨hlt, hp⟩ := findIdxOpt_spec _ f.options i hi
        have hval : (f.options.get ⟨i, hlt⟩).value = "" := by simpa using hp
        simp [isFieldEmpty, setSelectValue, domValue, selectValue, h1, h2, hi]
        left
        rw [List.getElem?_eq_getElem hlt]
        simpa using hval
      · by_cases h4 : f.options.length = 0
        · have honil : f.options = [] := List.length_eq_zero.mp h4
          have e : clearField f = setSelectValue f "" := by
            simp [clearField, h1, h2, h3, h4]
          rw [e]
          simp [isFieldEmpty, setSelectValue, domValue, selectValue, h1, h2, honil, findIdxOpt]
        · have h4p : 0 < f.options.length := Nat.pos_of_ne_zero h4
          have e : clearField f = { f with selectedIndex := none } := by
            simp [clearField, h1, h2, h3, h4p]
          rw [e]
          simp [isFieldEmpty, domValue, selectValue, h1, h2]
    · have e : clearField f = { f with value := "" } := by
        simp [clearField, h1, h2]
      rw [e]
      simp [isFieldEmpty, h1, h2]
      decide

/-- C9: clearing is idempotent on the document state — a second clear call
reproduces exactly the state of the first and still reports success —
ineligible controls (disabled, readonly, captcha-named, button-like or
file inputs) are never touched, and every eligible control is empty
(unchecked, unselected-or-placeholder, or empty string) after a clear. -/
theorem claimC9 (doc : List Field) :
    clearDoc (clearDoc doc) = clearDoc doc ∧
    (clearForms (clearDoc doc)).2.success = true ∧
    (∀ f : Field, clearEligible f = false → clearStep f = f) ∧
    (∀ f : Field, clearEligible f = true → isFieldEmpty (clearStep f) = true) := by
  refine ⟨?_, rfl, fun f hf => clearStep_untouched f hf, fun f hf => clearStep_empty f hf⟩
  unfold clearDoc
  rw [List.map_map]
  refine List.map_congr_left ?_
  intro f hf
  simpa using clearStep_idem f

/-- C9 witness: on a concrete document holding a checked checkbox, a
select, a text input and a disabled input, clearing twice equals clearing
once, the second call reports success, the disabled control is untouched
and the checkbox is empty after clearing. -/
theorem claimC9_witness :
    clearDoc (clearDoc docX) = clearDoc docX ∧
      (clearForms (clearDoc docX)).2.success = true ∧
      clearStep fldDisabled = fldDisabled ∧
      isFieldEmpty (clearStep cbChecked) = true :=
  ⟨(claimC9 docX).1, (claimC9 docX).2.1,
    (claimC9 docX).2.2.1 fldDisabled (by decide),
    (claimC9 docX).2.2.2 cbChecked (by decide)⟩

end FFF
